import Mathlib

/-!
Verification of the transportation-problem core (`solve_transportation` in
`src/app.py`) against its natural-language specification.

The Python function builds a PuLP linear program: one continuous variable
`x[i][j]` with `lowBound=0` per route, the objective
`Σ costs[i][j]·x[i][j]`, supply rows `Σ_j x[i][j] ≤ supply[i]`, demand rows
`Σ_i x[i][j] ≥ demand[j]`, optional per-route capacity rows
`x[i][j] ≤ capacities[i][j]`, optional per-route minimum rows
`x[i][j] ≥ route_minimums[i][j]`, and `x[i][j] == 0` rows for prohibited
routes.  It then calls the external LP solver once and returns a record
with the PuLP status string, `prob.objective.value()` (the objective
evaluated at the read-back variable values) and the read-back values
themselves.

Reals are embedded as `ℚ`; an assignment of the decision variables is a
function `ℕ → ℕ → ℚ`.  The external LP engine (CBC behind PuLP) is not
part of the repository: it is modelled as an abstract argument
`solver : Model → SolverOutcome` supplying a raw integer status and the
read-back values, and theorems that depend on solver correctness take the
relevant conformance facts as hypotheses.
-/

/-- The comparison operator of one PuLP constraint row. -/
inductive Cmp
| le
| ge
| eq

/-- One named constraint row of the linear program, as added by
`prob += expr <= rhs, name` in `src/app.py`: a linear expression of the
shipment variables, a comparison and a right-hand side. -/
structure Constraint where
  name : String
  lhs : (ℕ → ℕ → ℚ) → ℚ
  cmp : Cmp
  rhs : ℚ

/-- Whether an assignment of the shipment variables satisfies one
constraint row. -/
def Constraint.check (c : Constraint) (x : ℕ → ℕ → ℚ) : Bool :=
  match c.cmp with
  | Cmp.le => decide (c.lhs x ≤ c.rhs)
  | Cmp.ge => decide (c.rhs ≤ c.lhs x)
  | Cmp.eq => decide (c.lhs x = c.rhs)

/-- The assembled linear program: problem dimensions, the objective
(minimised), and the constraint rows.  The variables' `lowBound=0` from
`LpVariable(f"x_{i}_{j}", lowBound=0)` is part of the model and enters
`Model.check` directly. -/
structure Model where
  numOrigins : ℕ
  numDestinations : ℕ
  objective : (ℕ → ℕ → ℚ) → ℚ
  constraints : List Constraint

/-- Whether an assignment satisfies the whole model: the `lowBound=0`
variable bounds and every constraint row. -/
def Model.check (M : Model) (x : ℕ → ℕ → ℚ) : Bool :=
  ((List.range M.numOrigins).all fun i =>
    (List.range M.numDestinations).all fun j => decide (0 ≤ x i j)) &&
  M.constraints.all fun c => c.check x

/-- Feasibility of an assignment for a model. -/
def Model.Feasible (M : Model) (x : ℕ → ℕ → ℚ) : Prop :=
  M.check x = true

instance (M : Model) (x : ℕ → ℕ → ℚ) : Decidable (M.Feasible x) :=
  instDecidableEqBool (M.check x) true

/-- Entry `costs[i][j]` of a dense matrix given as a list of rows
(defaulting to `0` out of range; the Python code only ever indexes in
range, where the two agree). -/
def costAt (costs : List (List ℚ)) (i j : ℕ) : ℚ :=
  (costs.getD i []).getD j 0

/-- `lpSum(x[i][j] for j in range(n))`: total outflow of origin `i`. -/
def rowSum (x : ℕ → ℕ → ℚ) (n i : ℕ) : ℚ :=
  ((List.range n).map fun j => x i j).sum

/-- `lpSum(x[i][j] for i in range(m))`: total inflow of destination `j`. -/
def colSum (x : ℕ → ℕ → ℚ) (m j : ℕ) : ℚ :=
  ((List.range m).map fun i => x i j).sum

/-- The objective `lpSum(costs[i][j] * x[i][j] ...)` of `src/app.py`
line 16, evaluated at an assignment. -/
def objSum (costs : List (List ℚ)) (m n : ℕ) (x : ℕ → ℕ → ℚ) : ℚ :=
  ((List.range m).map fun i =>
    ((List.range n).map fun j => costAt costs i j * x i j).sum).sum

/-- Supply rows, `src/app.py` lines 19-20:
`Σ_j x[i][j] ≤ supply[i]` named `Supply_i`, one per origin. -/
def supplyCons (supply : List ℚ) (n : ℕ) : List Constraint :=
  (List.range supply.length).map fun i =>
    ⟨"Supply_" ++ toString i, fun x => rowSum x n i, Cmp.le, supply.getD i 0⟩

/-- Demand rows, `src/app.py` lines 23-24:
`Σ_i x[i][j] ≥ demand[j]` named `Demand_j`, one per destination. -/
def demandCons (demand : List ℚ) (m : ℕ) : List Constraint :=
  (List.range demand.length).map fun j =>
    ⟨"Demand_" ++ toString j, fun x => colSum x m j, Cmp.ge, demand.getD j 0⟩

/-- Capacity rows, `src/app.py` lines 27-30: when `capacities` is truthy
(present and a non-empty list), `x[i][j] ≤ capacities[i][j]` named
`Capacity_i_j` for every route. -/
def capacityCons (capacities : Option (List (List ℚ))) (m n : ℕ) :
    List Constraint :=
  match capacities with
  | none => []
  | some caps =>
    if caps.isEmpty then [] else
      ((List.range m).map fun i => (List.range n).map fun j =>
        (⟨"Capacity_" ++ toString i ++ "_" ++ toString j,
          fun x => x i j, Cmp.le, costAt caps i j⟩ : Constraint)).flatten

/-- Route-minimum rows, `src/app.py` lines 33-36: when `route_minimums`
is truthy, `x[i][j] ≥ route_minimums[i][j]` named `RouteMin_i_j` for
every route. -/
def minimumCons (route_minimums : Option (List (List ℚ))) (m n : ℕ) :
    List Constraint :=
  match route_minimums with
  | none => []
  | some mins =>
    if mins.isEmpty then [] else
      ((List.range m).map fun i => (List.range n).map fun j =>
        (⟨"RouteMin_" ++ toString i ++ "_" ++ toString j,
          fun x => x i j, Cmp.ge, costAt mins i j⟩ : Constraint)).flatten

/-- Prohibited-route rows, `src/app.py` lines 39-41: when
`prohibited_routes` is truthy, `x[i][j] == 0` named `Prohibited_i_j` for
each listed pair. -/
def prohibitedCons (prohibited_routes : Option (List (ℕ × ℕ))) :
    List Constraint :=
  match prohibited_routes with
  | none => []
  | some pr =>
    if pr.isEmpty then [] else
      pr.map fun ij =>
        ⟨"Prohibited_" ++ toString ij.1 ++ "_" ++ toString ij.2,
          fun x => x ij.1 ij.2, Cmp.eq, 0⟩

/-- The model-building part of `solve_transportation`, `src/app.py`
lines 5-41: `num_origins = len(supply)`, `num_destinations = len(demand)`,
objective and constraint rows in source order.  The builder performs no
validation of any kind: it is total and always produces a model. -/
def buildModel (costs : List (List ℚ)) (supply demand : List ℚ)
    (capacities route_minimums : Option (List (List ℚ)))
    (prohibited_routes : Option (List (ℕ × ℕ))) : Model :=
  { numOrigins := supply.length
    numDestinations := demand.length
    objective := fun x => objSum costs supply.length demand.length x
    constraints :=
      supplyCons supply demand.length ++ demandCons demand supply.length ++
        capacityCons capacities supply.length demand.length ++
        minimumCons route_minimums supply.length demand.length ++
        prohibitedCons prohibited_routes }

/-- What the external LP engine hands back through PuLP after
`prob.solve()`: the raw integer status `prob.status` and the read-back
variable values `x[i][j].varValue`. -/
structure SolverOutcome where
  status : ℤ
  values : ℕ → ℕ → ℚ

/-- PuLP's `LpStatus` table mapping the raw integer status to a display
string: `0 ↦ "Not Solved"`, `1 ↦ "Optimal"`, `-1 ↦ "Infeasible"`,
`-2 ↦ "Unbounded"`, `-3 ↦ "Undefined"`.  PuLP only ever sets
`prob.status` to one of these five keys; looking up any other key would
raise a `KeyError` in Python, modelled by the unreachable default
branch. -/
def LpStatus (s : ℤ) : String :=
  if s = 0 then "Not Solved"
  else if s = 1 then "Optimal"
  else if s = -1 then "Infeasible"
  else if s = -2 then "Unbounded"
  else if s = -3 then "Undefined"
  else "KeyError"

/-- The dictionary returned by `solve_transportation`, `src/app.py`
lines 47-51: status string, `prob.objective.value()` and the dense map of
read-back variable values (the dictionary key named `variables` in the
Python source is rendered `varValues` here because `variables` is a
reserved word in Lean).  All three keys are always present; nothing is
conditional on the status. -/
structure Solution where
  status : String
  total_cost : ℚ
  varValues : ℕ → ℕ → ℚ

/-- `solve_transportation` of `src/app.py` lines 5-52: build the model,
invoke the external solver once, and package the results.  `total_cost`
is `prob.objective.value()`, the objective expression evaluated at the
read-back values, and `variables` are the read-back values themselves,
both computed identically for every status. -/
def solve_transportation (costs : List (List ℚ)) (supply demand : List ℚ)
    (capacities route_minimums : Option (List (List ℚ)))
    (prohibited_routes : Option (List (ℕ × ℕ)))
    (solver : Model → SolverOutcome) : Solution :=
  let prob := buildModel costs supply demand capacities route_minimums
    prohibited_routes
  let out := solver prob
  { status := LpStatus out.status
    total_cost := prob.objective out.values
    varValues := out.values }

/-! ### Basic characterizations of feasibility -/

theorem check_le_iff (name : String) (f : (ℕ → ℕ → ℚ) → ℚ) (r : ℚ)
    (x : ℕ → ℕ → ℚ) :
    (Constraint.mk name f Cmp.le r).check x = true ↔ f x ≤ r := by
  simp [Constraint.check]

theorem check_ge_iff (name : String) (f : (ℕ → ℕ → ℚ) → ℚ) (r : ℚ)
    (x : ℕ → ℕ → ℚ) :
    (Constraint.mk name f Cmp.ge r).check x = true ↔ r ≤ f x := by
  simp [Constraint.check]

theorem check_eq_iff (name : String) (f : (ℕ → ℕ → ℚ) → ℚ) (r : ℚ)
    (x : ℕ → ℕ → ℚ) :
    (Constraint.mk name f Cmp.eq r).check x = true ↔ f x = r := by
  simp [Constraint.check]

theorem feasible_iff (M : Model) (x : ℕ → ℕ → ℚ) :
    M.Feasible x ↔
      (∀ i < M.numOrigins, ∀ j < M.numDestinations, 0 ≤ x i j) ∧
      ∀ c ∈ M.constraints, c.check x = true := by
  simp [Model.Feasible, Model.check, List.all_eq_true, List.mem_range]

theorem supply_con_mem (supply : List ℚ) (n i : ℕ) (hi : i < supply.length) :
    (⟨"Supply_" ++ toString i, fun x => rowSum x n i, Cmp.le,
      supply.getD i 0⟩ : Constraint) ∈ supplyCons supply n := by
  simp only [supplyCons, List.mem_map, List.mem_range]
  exact ⟨i, hi, rfl⟩

theorem demand_con_mem (demand : List ℚ) (m j : ℕ) (hj : j < demand.length) :
    (⟨"Demand_" ++ toString j, fun x => colSum x m j, Cmp.ge,
      demand.getD j 0⟩ : Constraint) ∈ demandCons demand m := by
  simp only [demandCons, List.mem_map, List.mem_range]
  exact ⟨j, hj, rfl⟩

theorem capacity_con_mem (caps : List (List ℚ)) (m n i j : ℕ)
    (hcaps : caps.isEmpty = false) (hi : i < m) (hj : j < n) :
    (⟨"Capacity_" ++ toString i ++ "_" ++ toString j, fun x => x i j,
      Cmp.le, costAt caps i j⟩ : Constraint) ∈ capacityCons (some caps) m n := by
  simp only [capacityCons, hcaps, Bool.false_eq_true, if_false,
    List.mem_flatten, List.mem_map, List.mem_range]
  exact ⟨_, ⟨i, hi, rfl⟩, by
    simp [List.mem_map, List.mem_range]
    exact ⟨j, hj, rfl, rfl, rfl⟩⟩

theorem minimum_con_mem (mins : List (List ℚ)) (m n i j : ℕ)
    (hmins : mins.isEmpty = false) (hi : i < m) (hj : j < n) :
    (⟨"RouteMin_" ++ toString i ++ "_" ++ toString j, fun x => x i j,
      Cmp.ge, costAt mins i j⟩ : Constraint) ∈ minimumCons (some mins) m n := by
  simp only [minimumCons, hmins, Bool.false_eq_true, if_false,
    List.mem_flatten, List.mem_map, List.mem_range]
  exact ⟨_, ⟨i, hi, rfl⟩, by
    simp [List.mem_map, List.mem_range]
    exact ⟨j, hj, rfl, rfl, rfl⟩⟩

theorem prohibited_con_mem (pr : List (ℕ × ℕ)) (i j : ℕ)
    (hmem : (i, j) ∈ pr) :
    (⟨"Prohibited_" ++ toString i ++ "_" ++ toString j, fun x => x i j,
      Cmp.eq, 0⟩ : Constraint) ∈ prohibitedCons (some pr) := by
  have hne : pr.isEmpty = false := by
    cases pr with
    | nil => cases hmem
    | cons a l => rfl
  simp only [prohibitedCons, hne, Bool.false_eq_true, if_false, List.mem_map]
  exact ⟨(i, j), hmem, rfl⟩

theorem buildModel_constraints (costs : List (List ℚ)) (supply demand : List ℚ)
    (caps mins : Option (List (List ℚ))) (pr : Option (List (ℕ × ℕ))) :
    (buildModel costs supply demand caps mins pr).constraints =
      supplyCons supply demand.length ++ demandCons demand supply.length ++
        capacityCons caps supply.length demand.length ++
        minimumCons mins supply.length demand.length ++
        prohibitedCons pr := rfl

theorem feasible_nonneg {costs : List (List ℚ)} {supply demand : List ℚ}
    {caps mins : Option (List (List ℚ))} {pr : Option (List (ℕ × ℕ))}
    {x : ℕ → ℕ → ℚ}
    (hx : (buildModel costs supply demand caps mins pr).Feasible x)
    (i j : ℕ) (hi : i < supply.length) (hj : j < demand.length) :
    0 ≤ x i j :=
  ((feasible_iff _ _).1 hx).1 i hi j hj

theorem feasible_supply_le {costs : List (List ℚ)} {supply demand : List ℚ}
    {caps mins : Option (List (List ℚ))} {pr : Option (List (ℕ × ℕ))}
    {x : ℕ → ℕ → ℚ}
    (hx : (buildModel costs supply demand caps mins pr).Feasible x)
    (i : ℕ) (hi : i < supply.length) :
    rowSum x demand.length i ≤ supply.getD i 0 := by
  have h := ((feasible_iff _ _).1 hx).2
  have hc := h _ (by
    rw [buildModel_constraints]
    simp only [List.mem_append]
    exact Or.inl (Or.inl (Or.inl (Or.inl
      (supply_con_mem supply demand.length i hi)))))
  exact (check_le_iff _ _ _ _).1 hc

theorem feasible_demand_ge {costs : List (List ℚ)} {supply demand : List ℚ}
    {caps mins : Option (List (List ℚ))} {pr : Option (List (ℕ × ℕ))}
    {x : ℕ → ℕ → ℚ}
    (hx : (buildModel costs supply demand caps mins pr).Feasible x)
    (j : ℕ) (hj : j < demand.length) :
    demand.getD j 0 ≤ colSum x supply.length j := by
  have h := ((feasible_iff _ _).1 hx).2
  have hc := h _ (by
    rw [buildModel_constraints]
    simp only [List.mem_append]
    exact Or.inl (Or.inl (Or.inl (Or.inr
      (demand_con_mem demand supply.length j hj)))))
  exact (check_ge_iff _ _ _ _).1 hc

theorem feasible_capacity_le {costs : List (List ℚ)} {supply demand : List ℚ}
    {c : List (List ℚ)} {mins : Option (List (List ℚ))}
    {pr : Option (List (ℕ × ℕ))} {x : ℕ → ℕ → ℚ}
    (hx : (buildModel costs supply demand (some c) mins pr).Feasible x)
    (hc : c.isEmpty = false)
    (i j : ℕ) (hi : i < supply.length) (hj : j < demand.length) :
    x i j ≤ costAt c i j := by
  have h := ((feasible_iff _ _).1 hx).2
  have hcc := h _ (by
    rw [buildModel_constraints]
    simp only [List.mem_append]
    exact Or.inl (Or.inl (Or.inr
      (capacity_con_mem c supply.length demand.length i j hc hi hj))))
  exact (check_le_iff _ _ _ _).1 hcc

theorem feasible_minimum_ge {costs : List (List ℚ)} {supply demand : List ℚ}
    {caps : Option (List (List ℚ))} {mn : List (List ℚ)}
    {pr : Option (List (ℕ × ℕ))} {x : ℕ → ℕ → ℚ}
    (hx : (buildModel costs supply demand caps (some mn) pr).Feasible x)
    (hm : mn.isEmpty = false)
    (i j : ℕ) (hi : i < supply.length) (hj : j < demand.length) :
    costAt mn i j ≤ x i j := by
  have h := ((feasible_iff _ _).1 hx).2
  have hcc := h _ (by
    rw [buildModel_constraints]
    simp only [List.mem_append]
    exact Or.inl (Or.inr
      (minimum_con_mem mn supply.length demand.length i j hm hi hj)))
  exact (check_ge_iff _ _ _ _).1 hcc

theorem feasible_prohibited_eq {costs : List (List ℚ)} {supply demand : List ℚ}
    {caps mins : Option (List (List ℚ))} {pr : List (ℕ × ℕ)}
    {x : ℕ → ℕ → ℚ}
    (hx : (buildModel costs supply demand caps mins (some pr)).Feasible x)
    (i j : ℕ) (hmem : (i, j) ∈ pr) :
    x i j = 0 := by
  have h := ((feasible_iff _ _).1 hx).2
  have hcc := h _ (by
    rw [buildModel_constraints]
    simp only [List.mem_append]
    exact Or.inr (prohibited_con_mem pr i j hmem))
  exact (check_eq_iff _ _ _ _).1 hcc

theorem feasible_of_bounds {costs : List (List ℚ)} {supply demand : List ℚ}
    {x : ℕ → ℕ → ℚ}
    (h0 : ∀ i < supply.length, ∀ j < demand.length, 0 ≤ x i j)
    (hs : ∀ i < supply.length, rowSum x demand.length i ≤ supply.getD i 0)
    (hd : ∀ j < demand.length, demand.getD j 0 ≤ colSum x supply.length j) :
    (buildModel costs supply demand none none none).Feasible x := by
  rw [feasible_iff]
  refine ⟨h0, ?_⟩
  intro c hc
  rw [buildModel_constraints] at hc
  simp only [capacityCons, minimumCons, prohibitedCons, List.append_nil,
    List.mem_append] at hc
  rcases hc with hc | hc
  · obtain ⟨i, hi, rfl⟩ := by
      simpa only [supplyCons, List.mem_map, List.mem_range] using hc
    exact (check_le_iff _ _ _ _).2 (hs i hi)
  · obtain ⟨j, hj, rfl⟩ := by
      simpa only [demandCons, List.mem_map, List.mem_range] using hc
    exact (check_ge_iff _ _ _ _).2 (hd j hj)

theorem list_range_map_sum (n : ℕ) (f : ℕ → ℚ) :
    ((List.range n).map f).sum = ∑ j in Finset.range n, f j := by
  induction n with
  | zero => simp
  | succ k ih =>
    rw [List.range_succ, List.map_append, List.sum_append,
      Finset.sum_range_succ, ih]
    simp

theorem list_getD_range_map (l : List ℚ) :
    (List.range l.length).map (fun i => l.getD i 0) = l := by
  apply List.ext_getElem
  · simp
  · intro k h1 h2
    simp [List.getD_eq_getElem?_getD, List.getElem?_eq_getElem h2]

theorem list_sum_getD_range (l : List ℚ) :
    (∑ i in Finset.range l.length, l.getD i 0) = l.sum := by
  rw [← list_range_map_sum, list_getD_range_map]

theorem infeasible_of_demand_gt_supply {costs : List (List ℚ)}
    {supply demand : List ℚ} {caps mins : Option (List (List ℚ))}
    {pr : Option (List (ℕ × ℕ))}
    (hgt : supply.sum < demand.sum) :
    ¬ ∃ x, (buildModel costs supply demand caps mins pr).Feasible x := by
  rintro ⟨x, hx⟩
  have hT1 : (∑ i in Finset.range supply.length, rowSum x demand.length i)
      ≤ ∑ i in Finset.range supply.length, supply.getD i 0 :=
    Finset.sum_le_sum fun i hi =>
      feasible_supply_le hx i (Finset.mem_range.1 hi)
  have hT2 : (∑ j in Finset.range demand.length, demand.getD j 0)
      ≤ ∑ j in Finset.range demand.length, colSum x supply.length j :=
    Finset.sum_le_sum fun j hj =>
      feasible_demand_ge hx j (Finset.mem_range.1 hj)
  have hswap : (∑ i in Finset.range supply.length, rowSum x demand.length i)
      = ∑ j in Finset.range demand.length, colSum x supply.length j := by
    simp only [rowSum, colSum, list_range_map_sum]
    exact Finset.sum_comm
  rw [list_sum_getD_range] at hT1 hT2
  linarith

/-! ### Claim theorems -/

/-- C1: in every model built by `solve_transportation`, supply constraints
are upper bounds (for every origin `i`, total outflow `≤ supply[i]`) and
demand constraints are lower bounds (for every destination `j`, total
inflow `≥ demand[j]`); with no optional constraints, feasibility is
exactly these bounds together with the variables' non-negativity, so
origins need not be fully drained and excess inflow beyond demand is
permitted. -/
theorem supply_upper_demand_lower
    (costs : List (List ℚ)) (supply demand : List ℚ)
    (caps mins : Option (List (List ℚ))) (pr : Option (List (ℕ × ℕ)))
    (x : ℕ → ℕ → ℚ) :
    ((buildModel costs supply demand caps mins pr).Feasible x →
      (∀ i < supply.length, rowSum x demand.length i ≤ supply.getD i 0) ∧
      (∀ j < demand.length, demand.getD j 0 ≤ colSum x supply.length j)) ∧
    ((buildModel costs supply demand none none none).Feasible x ↔
      (∀ i < supply.length, ∀ j < demand.length, 0 ≤ x i j) ∧
      (∀ i < supply.length, rowSum x demand.length i ≤ supply.getD i 0) ∧
      (∀ j < demand.length, demand.getD j 0 ≤ colSum x supply.length j)) := by
  constructor
  · intro hx
    exact ⟨fun i hi => feasible_supply_le hx i hi,
           fun j hj => feasible_demand_ge hx j hj⟩
  · constructor
    · intro hx
      exact ⟨fun i hi j hj => feasible_nonneg hx i j hi hj,
             fun i hi => feasible_supply_le hx i hi,
             fun j hj => feasible_demand_ge hx j hj⟩
    · rintro ⟨h0, hs, hd⟩
      exact feasible_of_bounds h0 hs hd

/-- Witness for C1 at a concrete instance: supply `[2]`, demand `[1]`,
shipping `1` unit is feasible (the origin is not fully drained) and the
bounds hold. -/
theorem supply_upper_demand_lower_witness :
    (∀ i < 1, rowSum (fun _ _ => (1 : ℚ)) 1 i ≤ [(2 : ℚ)].getD i 0) ∧
    (∀ j < 1, ([(1 : ℚ)].getD j 0) ≤ colSum (fun _ _ => (1 : ℚ)) 1 j) :=
  (supply_upper_demand_lower [[1]] [2] [1] none none none
    (fun _ _ => 1)).1 (by
      norm_num [Model.Feasible, Model.check, buildModel, supplyCons,
        demandCons, capacityCons, minimumCons, prohibitedCons, rowSum,
        colSum, costAt, Constraint.check, List.range_succ])

theorem status_optimal_raw {s : ℤ} (h : LpStatus s = "Optimal") : s = 1 := by
  unfold LpStatus at h
  split_ifs at h <;> first
    | assumption
    | exact absurd h (by decide)

/-- C10: whenever a capacities matrix (resp. a route-minimums matrix) is
supplied and non-empty, every one of the m×n routes gets the bound
`x[i][j] ≤ capacities[i][j]` (resp. `x[i][j] ≥ route_minimums[i][j]`) in
the built model, with no per-route opt-out; a zero capacity entry
together with the variables' fixed lower bound `0` forces `x[i][j] = 0`
on that route. -/
theorem per_route_bounds
    (costs : List (List ℚ)) (supply demand : List ℚ)
    (c mn : List (List ℚ)) (caps mins : Option (List (List ℚ)))
    (pr : Option (List (ℕ × ℕ))) (i j : ℕ) (x : ℕ → ℕ → ℚ)
    (hi : i < supply.length) (hj : j < demand.length)
    (hc : c.isEmpty = false) (hm : mn.isEmpty = false) :
    ((buildModel costs supply demand (some c) mins pr).Feasible x →
      x i j ≤ costAt c i j ∧ (costAt c i j = 0 → x i j = 0)) ∧
    ((buildModel costs supply demand caps (some mn) pr).Feasible x →
      costAt mn i j ≤ x i j) := by
  constructor
  · intro hx
    have h1 := feasible_capacity_le hx hc i j hi hj
    have h2 := feasible_nonneg hx i j hi hj
    refine ⟨h1, fun h0 => ?_⟩
    rw [h0] at h1
    exact le_antisymm h1 h2
  · intro hx
    exact feasible_minimum_ge hx hm i j hi hj

/-- Witness for C10 at a concrete instance: capacity and minimum matrices
`[[0]]` on a 1×1 problem with supply `[1]`, demand `[0]` and the zero
assignment. -/
theorem per_route_bounds_witness :
    ((0 : ℚ) ≤ costAt [[0]] 0 0 ∧ (costAt [[0]] 0 0 = 0 → (0 : ℚ) = 0)) ∧
    costAt [[0]] 0 0 ≤ (0 : ℚ) :=
  ⟨(per_route_bounds [[1]] [1] [0] [[0]] [[0]] none none none 0 0
      (fun _ _ => 0) (by decide) (by decide) rfl rfl).1
      (by norm_num [Model.Feasible, Model.check, buildModel, supplyCons,
        demandCons, capacityCons, minimumCons, prohibitedCons, rowSum,
        colSum, costAt, Constraint.check, List.range_succ]),
   (per_route_bounds [[1]] [1] [0] [[0]] [[0]] none none none 0 0
      (fun _ _ => 0) (by decide) (by decide) rfl rfl).2
      (by norm_num [Model.Feasible, Model.check, buildModel, supplyCons,
        demandCons, capacityCons, minimumCons, prohibitedCons, rowSum,
        colSum, costAt, Constraint.check, List.range_succ])⟩

/-- C2: for every prohibited route `(i,j)`, the built model constrains
`x[i][j]` to exactly zero — equivalently both bounds are zero, i.e. every
feasible assignment satisfies `x i j = 0`, `x i j ≤ 0` and `0 ≤ x i j` —
and in any returned result with status `Optimal` (assuming the external
solver returns model-feasible values whenever it reports raw status `1`),
the resolved value `x[i][j]` equals `0`. -/
theorem prohibited_route_zero
    (costs : List (List ℚ)) (supply demand : List ℚ)
    (caps mins : Option (List (List ℚ))) (pr : List (ℕ × ℕ)) (i j : ℕ)
    (solver : Model → SolverOutcome)
    (hmem : (i, j) ∈ pr)
    (hconf : (solver (buildModel costs supply demand caps mins
        (some pr))).status = 1 →
      (buildModel costs supply demand caps mins (some pr)).Feasible
        (solver (buildModel costs supply demand caps mins (some pr))).values)
    (hopt : (solve_transportation costs supply demand caps mins (some pr)
        solver).status = "Optimal") :
    (∀ x, (buildModel costs supply demand caps mins (some pr)).Feasible x →
      x i j = 0 ∧ x i j ≤ 0 ∧ 0 ≤ x i j) ∧
    (solve_transportation costs supply demand caps mins (some pr)
      solver).varValues i j = 0 := by
  constructor
  · intro x hx
    have h := feasible_prohibited_eq hx i j hmem
    exact ⟨h, le_of_eq h, ge_of_eq h⟩
  · have hraw : (solver (buildModel costs supply demand caps mins
        (some pr))).status = 1 := status_optimal_raw hopt
    have hx := hconf hraw
    exact feasible_prohibited_eq hx i j hmem

/-- Witness for C2: a 1×1 problem with supply `[0]`, demand `[0]`,
prohibited route `(0,0)`, and a solver reporting `Optimal` with the zero
assignment. -/
theorem prohibited_route_zero_witness :
    (∀ x, (buildModel [[1]] [0] [0] none none (some [(0, 0)])).Feasible x →
      x 0 0 = 0 ∧ x 0 0 ≤ 0 ∧ 0 ≤ x 0 0) ∧
    (solve_transportation [[1]] [0] [0] none none (some [(0, 0)])
      (fun _ => ⟨1, fun _ _ => 0⟩)).varValues 0 0 = 0 :=
  prohibited_route_zero [[1]] [0] [0] none none [(0, 0)] 0 0
    (fun _ => ⟨1, fun _ _ => 0⟩) (by decide)
    (fun _ => by
      norm_num [Model.Feasible, Model.check, buildModel, supplyCons,
        demandCons, capacityCons, minimumCons, prohibitedCons, rowSum,
        colSum, costAt, Constraint.check, List.range_succ])
    rfl

/-- C3: the objective of the built model is exactly
`Σ cost[i][j]·x[i][j]`, and in every result with status `Optimal` the
returned total cost equals that sum evaluated at the resolved shipment
values — exactly in this rational model, hence in particular within the
1e-6 relative floating tolerance. -/
theorem optimal_cost_is_objective
    (costs : List (List ℚ)) (supply demand : List ℚ)
    (caps mins : Option (List (List ℚ))) (pr : Option (List (ℕ × ℕ)))
    (solver : Model → SolverOutcome)
    (_hopt : (solve_transportation costs supply demand caps mins pr
        solver).status = "Optimal") :
    ((buildModel costs supply demand caps mins pr).objective =
      fun x => objSum costs supply.length demand.length x) ∧
    ((solve_transportation costs supply demand caps mins pr
        solver).total_cost =
      objSum costs supply.length demand.length
        (solve_transportation costs supply demand caps mins pr
          solver).varValues) ∧
    |(solve_transportation costs supply demand caps mins pr
        solver).total_cost -
      objSum costs supply.length demand.length
        (solve_transportation costs supply demand caps mins pr
          solver).varValues| ≤
      (1 / 1000000) *
        |objSum costs supply.length demand.length
          (solve_transportation costs supply demand caps mins pr
            solver).varValues| := by
  refine ⟨rfl, rfl, ?_⟩
  have h : (solve_transportation costs supply demand caps mins pr
      solver).total_cost =
      objSum costs supply.length demand.length
        (solve_transportation costs supply demand caps mins pr
          solver).varValues := rfl
  rw [h, sub_self, abs_zero]
  positivity

/-- Witness for C3: a 1×1 problem where the solver reports `Optimal` with
value `2` on the single route of cost `3`. -/
theorem optimal_cost_is_objective_witness :
    ((buildModel [[3]] [5] [2] none none none).objective =
      fun x => objSum [[3]] 1 1 x) ∧
    ((solve_transportation [[3]] [5] [2] none none none
        (fun _ => ⟨1, fun _ _ => 2⟩)).total_cost =
      objSum [[3]] 1 1
        (solve_transportation [[3]] [5] [2] none none none
          (fun _ => ⟨1, fun _ _ => 2⟩)).varValues) ∧
    |(solve_transportation [[3]] [5] [2] none none none
        (fun _ => ⟨1, fun _ _ => 2⟩)).total_cost -
      objSum [[3]] 1 1
        (solve_transportation [[3]] [5] [2] none none none
          (fun _ => ⟨1, fun _ _ => 2⟩)).varValues| ≤
      (1 / 1000000) *
        |objSum [[3]] 1 1
          (solve_transportation [[3]] [5] [2] none none none
            (fun _ => ⟨1, fun _ _ => 2⟩)).varValues| :=
  optimal_cost_is_objective [[3]] [5] [2] none none none
    (fun _ => ⟨1, fun _ _ => 2⟩) rfl

/-- C4: if total demand strictly exceeds total supply, the builder still
constructs the model (it performs no feasibility pre-judgement) but the
model admits no feasible assignment, so a conforming solver (one that
reports raw status `-1` on an infeasible model) makes
`solve_transportation` return status `Infeasible`; the witness instance
is supply `[5]`, demand `[10]` on a single route. -/
theorem demand_gt_supply_infeasible
    (costs : List (List ℚ)) (supply demand : List ℚ)
    (caps mins : Option (List (List ℚ))) (pr : Option (List (ℕ × ℕ)))
    (solver : Model → SolverOutcome)
    (hgt : supply.sum < demand.sum)
    (hconf : (¬ ∃ x, (buildModel costs supply demand caps mins
        pr).Feasible x) →
      (solver (buildModel costs supply demand caps mins pr)).status = -1) :
    (¬ ∃ x, (buildModel costs supply demand caps mins pr).Feasible x) ∧
    (solve_transportation costs supply demand caps mins pr solver).status =
      "Infeasible" := by
  have hinf :=
    @infeasible_of_demand_gt_supply costs supply demand caps mins pr hgt
  refine ⟨hinf, ?_⟩
  show LpStatus (solver (buildModel costs supply demand caps mins
    pr)).status = "Infeasible"
  rw [hconf hinf]
  rfl

/-- Witness for C4 at the spec's scenario: supply `[5]`, demand `[10]`,
single route, with a solver that reports raw status `-1` on infeasible
models. -/
theorem demand_gt_supply_infeasible_witness :
    (¬ ∃ x, (buildModel [[1]] [5] [10] none none none).Feasible x) ∧
    (solve_transportation [[1]] [5] [10] none none none
      (fun _ => ⟨-1, fun _ _ => 0⟩)).status = "Infeasible" :=
  demand_gt_supply_infeasible [[1]] [5] [10] none none none
    (fun _ => ⟨-1, fun _ _ => 0⟩) (by norm_num) (fun _ => rfl)

/-- Counterexample for C5: with capacity `2` and minimum `5` on the single
route, the builder raises no error — it assembles the model containing
both the `Capacity_0_0` and `RouteMin_0_0` rows — the model is infeasible,
and the solver is invoked, producing an ordinary `Infeasible` result
rather than a `ConflictingConstraintError`. -/
theorem cap_lt_min_no_error_cex :
    ((buildModel [[1]] [5] [5] (some [[2]]) (some [[5]]) none).constraints.map
        Constraint.name =
      ["Supply_0", "Demand_0", "Capacity_0_0", "RouteMin_0_0"]) ∧
    (¬ ∃ x, (buildModel [[1]] [5] [5] (some [[2]]) (some [[5]])
      none).Feasible x) ∧
    (solve_transportation [[1]] [5] [5] (some [[2]]) (some [[5]]) none
      (fun _ => ⟨-1, fun _ _ => 0⟩)).status = "Infeasible" := by
  refine ⟨rfl, ?_, rfl⟩
  rintro ⟨x, hx⟩
  have h1 := feasible_capacity_le hx rfl 0 0 (by decide) (by decide)
  have h2 := feasible_minimum_ge hx rfl 0 0 (by decide) (by decide)
  norm_num [costAt] at h1 h2
  linarith

/-- C5 amended: the builder performs no conflict validation and there is
no `ConflictingConstraintError`; when capacities and minimums are both
supplied (non-empty) and `capacity[i][j] < minimum[i][j]` for some route,
it assembles the model with both bounds anyway, that model has no
feasible assignment, and a conforming solver (raw status `-1` on an
infeasible model) makes `solve_transportation` return status
`Infeasible`. -/
theorem cap_lt_min_infeasible
    (costs : List (List ℚ)) (supply demand : List ℚ)
    (c mn : List (List ℚ)) (pr : Option (List (ℕ × ℕ)))
    (i j : ℕ) (hi : i < supply.length) (hj : j < demand.length)
    (hc : c.isEmpty = false) (hm : mn.isEmpty = false)
    (hlt : costAt c i j < costAt mn i j)
    (solver : Model → SolverOutcome)
    (hconf : (¬ ∃ x, (buildModel costs supply demand (some c) (some mn)
        pr).Feasible x) →
      (solver (buildModel costs supply demand (some c) (some mn)
        pr)).status = -1) :
    (¬ ∃ x, (buildModel costs supply demand (some c) (some mn)
      pr).Feasible x) ∧
    (solve_transportation costs supply demand (some c) (some mn) pr
      solver).status = "Infeasible" := by
  have hinf : ¬ ∃ x, (buildModel costs supply demand (some c) (some mn)
      pr).Feasible x := by
    rintro ⟨x, hx⟩
    have h1 := feasible_capacity_le hx hc i j hi hj
    have h2 := feasible_minimum_ge hx hm i j hi hj
    linarith
  refine ⟨hinf, ?_⟩
  show LpStatus (solver (buildModel costs supply demand (some c) (some mn)
    pr)).status = "Infeasible"
  rw [hconf hinf]
  rfl

/-- Witness for the amended C5 at the spec's instance: capacity `2`,
minimum `5` on the single route of a 1×1 problem. -/
theorem cap_lt_min_infeasible_witness :
    (¬ ∃ x, (buildModel [[1]] [5] [5] (some [[2]]) (some [[5]])
      none).Feasible x) ∧
    (solve_transportation [[1]] [5] [5] (some [[2]]) (some [[5]]) none
      (fun _ => ⟨-1, fun _ _ => 0⟩)).status = "Infeasible" :=
  cap_lt_min_infeasible [[1]] [5] [5] [[2]] [[5]] none 0 0 (by decide)
    (by decide) rfl rfl (by norm_num [costAt]) (fun _ => ⟨-1, fun _ _ => 0⟩)
    (fun _ => rfl)

/-- Counterexample for C6: on an infeasible instance (supply `[1]`,
demand `[2]`) where the solver reports raw status `-1` with read-back
value `3` on the route, the returned result is `Infeasible` yet still
carries a numeric total cost (`2·3 = 6`) and the full shipment value
(`3`) — not status only, and not absent/null. -/
theorem non_optimal_carries_values_cex :
    (solve_transportation [[2]] [1] [2] none none none
      (fun _ => ⟨-1, fun _ _ => 3⟩)).status = "Infeasible" ∧
    (solve_transportation [[2]] [1] [2] none none none
      (fun _ => ⟨-1, fun _ _ => 3⟩)).total_cost = 6 ∧
    (solve_transportation [[2]] [1] [2] none none none
      (fun _ => ⟨-1, fun _ _ => 3⟩)).varValues 0 0 = 3 ∧
    (¬ ∃ x, (buildModel [[2]] [1] [2] none none none).Feasible x) := by
  refine ⟨rfl, ?_, rfl, ?_⟩
  · show objSum [[2]] 1 1 (fun _ _ => 3) = 6
    norm_num [objSum, costAt, List.range_succ]
  · exact @infeasible_of_demand_gt_supply [[2]] [1] [2] none none none
      (by norm_num)

/-- C6 amended: the returned dictionary always carries all three keys for
every status: `total_cost` is the objective evaluated at the solver's
read-back values and the shipment matrix is the read-back values
themselves, computed identically whatever the status — non-Optimal
results include these (possibly meaningless) values rather than omitting
them. -/
theorem result_always_carries_values
    (costs : List (List ℚ)) (supply demand : List ℚ)
    (caps mins : Option (List (List ℚ))) (pr : Option (List (ℕ × ℕ)))
    (solver : Model → SolverOutcome) :
    ((solve_transportation costs supply demand caps mins pr
        solver).total_cost =
      (buildModel costs supply demand caps mins pr).objective
        (solver (buildModel costs supply demand caps mins pr)).values) ∧
    ∀ i j, (solve_transportation costs supply demand caps mins pr
        solver).varValues i j =
      (solver (buildModel costs supply demand caps mins pr)).values i j :=
  ⟨rfl, fun _ _ => rfl⟩

/-- Counterexample for C7: the raw solver status `0` is mapped to the
string `Not Solved`, a fifth value that is neither one of
`Optimal`/`Infeasible`/`Unbounded` nor any rendering of
`Undefined/Error` — it is passed through, not normalized. -/
theorem raw_status_zero_cex :
    (solve_transportation [[1]] [1] [1] none none none
      (fun _ => ⟨0, fun _ _ => 0⟩)).status = "Not Solved" ∧
    ("Not Solved" : String) ∉
      (["Optimal", "Infeasible", "Unbounded", "Undefined"] : List String) ∧
    ("Not Solved" : String) ≠ "Undefined/Error" :=
  ⟨rfl, by decide, by decide⟩

/-- C7 amended: for the five raw statuses PuLP ever produces
(`0, 1, -1, -2, -3`), the returned status is one of the five strings
`Not Solved`, `Optimal`, `Infeasible`, `Unbounded`, `Undefined`; raw
status `0` is reported as `Not Solved` rather than being normalized to
`Undefined/Error`. -/
theorem status_one_of_five
    (costs : List (List ℚ)) (supply demand : List ℚ)
    (caps mins : Option (List (List ℚ))) (pr : Option (List (ℕ × ℕ)))
    (solver : Model → SolverOutcome)
    (hraw : (solver (buildModel costs supply demand caps mins pr)).status ∈
      ([0, 1, -1, -2, -3] : List ℤ)) :
    (solve_transportation costs supply demand caps mins pr solver).status ∈
      (["Not Solved", "Optimal", "Infeasible", "Unbounded", "Undefined"] :
        List String) := by
  show LpStatus (solver (buildModel costs supply demand caps mins
    pr)).status ∈ _
  simp only [List.mem_cons, List.not_mem_nil, or_false] at hraw
  rcases hraw with h | h | h | h | h <;> rw [h] <;> decide

/-- Witness for the amended C7: a solver reporting raw status `1`. -/
theorem status_one_of_five_witness :
    (solve_transportation [[1]] [1] [1] none none none
      (fun _ => ⟨1, fun _ _ => 1⟩)).status ∈
      (["Not Solved", "Optimal", "Infeasible", "Unbounded", "Undefined"] :
        List String) :=
  status_one_of_five [[1]] [1] [1] none none none
    (fun _ => ⟨1, fun _ _ => 1⟩) (by decide)

/-- Counterexample for C8: with the negative demand entry `-1`, no
`NegativeValueError` is raised — the builder embeds `-1` verbatim as the
right-hand side of the demand row, the model is even feasible (the
zero assignment satisfies inflow `≥ -1`), the solver is invoked, and an
ordinary `Optimal` result is returned. -/
theorem negative_demand_no_error_cex :
    ((buildModel [[1]] [1] [-1] none none none).constraints.map
      Constraint.rhs = [1, -1]) ∧
    ((buildModel [[1]] [1] [-1] none none none).Feasible fun _ _ => 0) ∧
    (solve_transportation [[1]] [1] [-1] none none none
      (fun _ => ⟨1, fun _ _ => 0⟩)).status = "Optimal" ∧
    (solve_transportation [[1]] [1] [-1] none none none
      (fun _ => ⟨1, fun _ _ => 0⟩)).total_cost = 0 := by
  refine ⟨rfl, ?_, rfl, ?_⟩
  · norm_num [Model.Feasible, Model.check, buildModel, supplyCons,
      demandCons, capacityCons, minimumCons, prohibitedCons, rowSum,
      colSum, costAt, Constraint.check, List.range_succ]
  · show objSum [[1]] 1 1 (fun _ _ => 0) = 0
    norm_num [objSum, costAt, List.range_succ]

/-- C8 amended: there is no `NegativeValueError` and no validation of
signs; supply and demand entries — negative ones included — are embedded
verbatim as the right-hand sides of the supply and demand rows, every
supplied (non-empty) capacities and route-minimums matrix likewise has
its entry `c[i][j]` (resp. `mn[i][j]`), negative or not, embedded
verbatim as the right-hand side of that route's `Capacity_i_j`
(resp. `RouteMin_i_j`) row, and the solver is always invoked, the
returned status being exactly the mapping of whatever raw status it
reports. -/
theorem negative_entries_passed_through
    (costs : List (List ℚ)) (supply demand : List ℚ)
    (c mn : List (List ℚ)) (caps mins : Option (List (List ℚ)))
    (pr : Option (List (ℕ × ℕ))) (solver : Model → SolverOutcome)
    (i j : ℕ) (hi : i < supply.length) (hj : j < demand.length)
    (hc : c.isEmpty = false) (hm : mn.isEmpty = false) :
    ((buildModel costs supply demand none none none).constraints.map
      Constraint.rhs = supply ++ demand) ∧
    ((⟨"Capacity_" ++ toString i ++ "_" ++ toString j, fun x => x i j,
        Cmp.le, costAt c i j⟩ : Constraint) ∈
      (buildModel costs supply demand (some c) mins pr).constraints) ∧
    ((⟨"RouteMin_" ++ toString i ++ "_" ++ toString j, fun x => x i j,
        Cmp.ge, costAt mn i j⟩ : Constraint) ∈
      (buildModel costs supply demand caps (some mn) pr).constraints) ∧
    ((solve_transportation costs supply demand caps mins pr
        solver).status =
      LpStatus ((solver (buildModel costs supply demand caps mins
        pr)).status)) := by
  refine ⟨?_, ?_, ?_, rfl⟩
  case refine_2 =>
    rw [buildModel_constraints]
    simp only [List.mem_append]
    exact Or.inl (Or.inl (Or.inr
      (capacity_con_mem c supply.length demand.length i j hc hi hj)))
  case refine_3 =>
    rw [buildModel_constraints]
    simp only [List.mem_append]
    exact Or.inl (Or.inr
      (minimum_con_mem mn supply.length demand.length i j hm hi hj))
  rw [buildModel_constraints]
  simp only [capacityCons, minimumCons, prohibitedCons, List.append_nil,
    List.map_append, supplyCons, demandCons, List.map_map]
  rw [show ((fun c => Constraint.rhs c) ∘ fun i =>
      (⟨"Supply_" ++ toString i, fun x => rowSum x demand.length i, Cmp.le,
        supply.getD i 0⟩ : Constraint)) = fun i => supply.getD i 0 from rfl,
    show ((fun c => Constraint.rhs c) ∘ fun j =>
      (⟨"Demand_" ++ toString j, fun x => colSum x supply.length j, Cmp.ge,
        demand.getD j 0⟩ : Constraint)) = fun j => demand.getD j 0 from rfl,
    list_getD_range_map supply, list_getD_range_map demand]

/-- Witness for the amended C8 at a concrete instance with negative
entries everywhere the optional matrices allow them: demand `-1`,
capacity `-2` and route minimum `-5` are all embedded verbatim, and the
solver is invoked. -/
theorem negative_entries_passed_through_witness :
    ((buildModel [[1]] [1] [-1] none none none).constraints.map
      Constraint.rhs = [1] ++ [-1]) ∧
    ((⟨"Capacity_0_0", fun x => x 0 0, Cmp.le, -2⟩ : Constraint) ∈
      (buildModel [[1]] [1] [-1] (some [[-2]]) none none).constraints) ∧
    ((⟨"RouteMin_0_0", fun x => x 0 0, Cmp.ge, -5⟩ : Constraint) ∈
      (buildModel [[1]] [1] [-1] none (some [[-5]]) none).constraints) ∧
    ((solve_transportation [[1]] [1] [-1] none none none
        (fun _ => ⟨1, fun _ _ => 0⟩)).status =
      LpStatus ((fun _ => (⟨1, fun _ _ => 0⟩ : SolverOutcome))
        (buildModel [[1]] [1] [-1] none none none)).status) :=
  negative_entries_passed_through [[1]] [1] [-1] [[-2]] [[-5]] none none
    none (fun _ => ⟨1, fun _ _ => 0⟩) 0 0 (by decide) (by decide) rfl rfl

/-- Counterexample for C9: a read-back value `-1e-8` (inside the clamping
interval `[-1e-7, 0)`) on an `Optimal` result is returned verbatim in the
shipment matrix — it is not clamped to `0`. -/
theorem negative_noise_not_clamped_cex :
    (solve_transportation [[1]] [1] [0] none none none
      (fun _ => ⟨1, fun _ _ => -(1 / 100000000)⟩)).status = "Optimal" ∧
    (solve_transportation [[1]] [1] [0] none none none
      (fun _ => ⟨1, fun _ _ => -(1 / 100000000)⟩)).varValues 0 0 =
      -(1 / 100000000) ∧
    ¬ (solve_transportation [[1]] [1] [0] none none none
      (fun _ => ⟨1, fun _ _ => -(1 / 100000000)⟩)).varValues 0 0 = 0 ∧
    (-(1 / 10000000) : ℚ) ≤
      (solve_transportation [[1]] [1] [0] none none none
        (fun _ => ⟨1, fun _ _ => -(1 / 100000000)⟩)).varValues 0 0 ∧
    (solve_transportation [[1]] [1] [0] none none none
      (fun _ => ⟨1, fun _ _ => -(1 / 100000000)⟩)).varValues 0 0 < 0 := by
  refine ⟨rfl, rfl, ?_, ?_, ?_⟩
  · show ¬ (-(1 / 100000000) : ℚ) = 0
    norm_num
  · show (-(1 / 10000000) : ℚ) ≤ -(1 / 100000000)
    norm_num
  · show (-(1 / 100000000) : ℚ) < 0
    norm_num

/-- C9 amended: the shipment matrix of the returned result is the
solver's read-back values verbatim, for every route and every status; no
clamping of small negative values (or any other post-processing) is
applied. -/
theorem values_not_clamped
    (costs : List (List ℚ)) (supply demand : List ℚ)
    (caps mins : Option (List (List ℚ))) (pr : Option (List (ℕ × ℕ)))
    (solver : Model → SolverOutcome) (i j : ℕ) :
    (solve_transportation costs supply demand caps mins pr
        solver).varValues i j =
      (solver (buildModel costs supply demand caps mins pr)).values i j :=
  rfl
